import Mathlib

/-!
Verification of the OB-6 MIDI driver (src/OB6.cpp) against its specification.

The driver is embedded shallowly: a sysex message is the list of its data
bytes (the bytes JUCE's getSysExData exposes, between the F0/F7 framing),
each byte a Nat. Functions from the shared DSISynth / MidiKraft base
libraries that OB6.cpp calls but whose sources are not part of this
repository are modelled from the specification; each such definition's doc
comment starts with "Modelled from the spec:". Everything else is a direct
translation of OB6.cpp.
-/

namespace OB6Verification

/-- The OB-6 model id, 0b00101110, passed to the DSISynth constructor in OB6.cpp. -/
def midiModelID : Nat := 0x2e

/-! Indexes into the global parameter dump (enum OB6_GLOBAL_PARAMS in OB6.cpp). -/

def TRANSPOSE : Nat := 0

def MASTER_TUNE : Nat := 1

def MIDI_CHANNEL : Nat := 2

def MIDI_CLOCK : Nat := 3

def CLOCK_PORT : Nat := 4

def PARAM_TRANSMIT : Nat := 5

def PARAM_RECEIVE : Nat := 6

def MIDI_CONTROL : Nat := 7

def MIDI_SYSEX : Nat := 8

def MIDI_OUT : Nat := 9

def LOCAL_CONTROL : Nat := 10

def SEQ_JACK : Nat := 11

def POT_MODE : Nat := 12

def SUSTAIN_POLARITY : Nat := 13

def ALT_TUNING : Nat := 14

def VELOCITY_RESPONSE : Nat := 15

def AFTERTOUCH_RESPONSE : Nat := 16

def STEREO_MONO : Nat := 17

def ARP_BEAT_SYNC : Nat := 18

/-- One row of the global settings registry (struct DSIGlobalSettingDefinition).
The value-kind details (enumeration labels, bounds, display offsets) of the
TypedNamedValue member are not needed by any claim and are elided; the
parameter index, NRPN address, name and category are kept verbatim. -/
structure DSIGlobalSettingDefinition where
  sysexIndex : Nat
  nrpn : Nat
  paramName : String
  category : String
deriving DecidableEq, Repr

/-- The definitions member of struct gOB6GlobalSettings in OB6.cpp, row by row. -/
def gOB6GlobalSettingsDefinitions : List DSIGlobalSettingDefinition := [
  ⟨TRANSPOSE, 1025, "Transpose", "Tuning"⟩,
  ⟨MASTER_TUNE, 1024, "Master Tune", "Tuning"⟩,
  ⟨MIDI_CHANNEL, 1026, "MIDI Channel", "MIDI"⟩,
  ⟨MIDI_CLOCK, 1027, "MIDI Clock Mode", "MIDI"⟩,
  ⟨CLOCK_PORT, 1028, "Clock Port", "MIDI"⟩,
  ⟨PARAM_TRANSMIT, 1029, "MIDI Param Xmit", "MIDI"⟩,
  ⟨PARAM_RECEIVE, 1030, "MIDI Param Rcv", "MIDI"⟩,
  ⟨MIDI_CONTROL, 1035, "MIDI Control", "MIDI"⟩,
  ⟨MIDI_SYSEX, 1032, "MIDI SysEx", "MIDI"⟩,
  ⟨MIDI_OUT, 1033, "MIDI Out", "MIDI"⟩,
  ⟨ARP_BEAT_SYNC, 1036, "Arp Beat Sync", "MIDI"⟩,
  ⟨LOCAL_CONTROL, 1031, "Local Control Enabled", "MIDI"⟩,
  ⟨VELOCITY_RESPONSE, 1041, "Velocity Response", "Keyboard"⟩,
  ⟨AFTERTOUCH_RESPONSE, 1042, "Aftertouch Response", "Keyboard"⟩,
  ⟨STEREO_MONO, 1043, "Stereo or Mono", "Audio Setup"⟩,
  ⟨POT_MODE, 1037, "Pot Mode", "Front controls"⟩,
  ⟨SEQ_JACK, 1039, "Seq jack", "Pedals"⟩,
  ⟨ALT_TUNING, 1044, "Alternative Tuning", "Scales"⟩,
  ⟨SUSTAIN_POLARITY, 1040, "Sustain polarity", "Controls"⟩]

/-- kOB6GlobalSettings(): the lazily constructed C++ singleton is, in this pure
embedding, a constant function of its (unit) call argument returning the one
definitions list; laziness and sharing-by-reference have no observable effect
in a sequential, pure model. -/
def kOB6GlobalSettings (_ : Unit) : List DSIGlobalSettingDefinition :=
  gOB6GlobalSettingsDefinitions

/-- Modelled from the spec: escapeSysex lives in the shared DSISynth base, not
in this repository. Spec section 4.1: for each input byte, split into two 4-bit
nibbles (high, then low) and emit each nibble as one transport byte. -/
def escapeSysex : List Nat → List Nat
  | [] => []
  | b :: rest => b / 16 :: b % 16 :: escapeSysex rest

/-- Modelled from the spec: unescapeSysex lives in the shared DSISynth base, not
in this repository. Spec section 4.1: consume transport bytes in pairs,
recombine high/low nibbles into one output byte per pair, stop after the
expected length or when input is exhausted, whichever comes first (a trailing
unpaired byte cannot form an output byte). -/
def unescapeSysex : List Nat → Nat → List Nat
  | _, 0 => []
  | [], _ + 1 => []
  | [_], _ + 1 => []
  | hi :: lo :: rest, n + 1 => (hi * 16 + lo) :: unescapeSysex rest n

/-- Modelled from the spec: isOwnSysex lives in the shared DSISynth base, not in
this repository. Spec sections 4.2 and 6: a message is this device's sysex when
its vendor byte is 0x01 and its model byte is the model id supplied at
construction; vendor or model mismatch means "not mine". -/
def isOwnSysex (msg : List Nat) : Bool :=
  match msg with
  | v :: m :: _ => v == 0x01 && m == midiModelID
  | _ => false

/-- OB6::isGlobalSettingsDump: own sysex, more than 2 data bytes, command byte 0x0f. -/
def isGlobalSettingsDump (msg : List Nat) : Bool :=
  isOwnSysex msg && decide (2 < msg.length) && (msg.getD 2 0 == 0x0f)

/-- Modelled from the spec: isSingleProgramDump lives in the shared DSISynth
base, not in this repository. Spec section 4.2 table: command byte 0x02 on this
device's sysex is a Program Data Dump. -/
def isSingleProgramDump (msg : List Nat) : Bool :=
  isOwnSysex msg && decide (2 < msg.length) && (msg.getD 2 0 == 0x02)

/-- Modelled from the spec: isEditBufferDump lives in the shared DSISynth base,
not in this repository. Spec section 4.2 table: command byte 0x03 on this
device's sysex is an Edit Buffer Dump. -/
def isEditBufferDump (msg : List Nat) : Bool :=
  isOwnSysex msg && decide (2 < msg.length) && (msg.getD 2 0 == 0x03)

/-- Modelled from the spec: MidiTuning lives in a separate shared sub-codec
outside this repository. Spec glossary and section 4.2: tuning dumps are
recognized by the universal (non-vendor) MIDI tuning header, whose first data
byte is 0x7e rather than this manufacturer's 0x01, with sub-id 0x08. -/
def midiTuningIsTuningDump (msg : List Nat) : Bool :=
  msg.getD 0 0 == 0x7e && msg.getD 2 0 == 0x08

/-- A decoded patch record: the unescaped payload plus the optional program
slot (OB6Patch constructed in patchFromSysex; the slot stays absent for edit
buffer dumps). -/
structure PatchRecord where
  patchData : List Nat
  place : Option Nat
deriving DecidableEq, Repr

/-- OB6::numberOfPatches. -/
def numberOfPatches : Nat := 100

/-- OB6::numberOfBanks. -/
def numberOfBanks : Nat := 10

/-- OB6::patchFromSysex: on the driver's own sysex with more than 2 data
bytes, command 0x02 (program data dump) unescapes from index 5 and computes the
slot data[3] * 100 + data[4]; command 0x03 (edit buffer dump) unescapes from
index 3 and leaves the slot unset; anything else yields no record. -/
def patchFromSysex (msg : List Nat) : Option PatchRecord :=
  if isOwnSysex msg then
    if 2 < msg.length then
      let messageCode := msg.getD 2 0
      if messageCode == 0x02 || messageCode == 0x03 then
        let startIndex := if messageCode == 0x02 then 5 else 3
        let globalDumpData := unescapeSysex (msg.drop startIndex) 1024
        let place : Option Nat :=
          if messageCode == 0x02 then some (msg.getD 3 0 * 100 + msg.getD 4 0) else none
        some ⟨globalDumpData, place⟩
      else none
    else none
  else none

/-- OB6::patchToSysex: edit buffer header followed by the escaped payload. -/
def patchToSysex (patchData : List Nat) : List Nat :=
  0x01 :: midiModelID :: 0x03 :: escapeSysex patchData

/-- OB6::patchToProgramDumpSysex: program data header with bank and program
bytes (zero-based slot split by numberOfPatches) followed by the escaped
payload. -/
def patchToProgramDumpSysex (patchData : List Nat) (programNumber : Nat) : List Nat :=
  0x01 :: midiModelID :: 0x02 :: (programNumber / numberOfPatches) ::
    (programNumber % numberOfPatches) :: escapeSysex patchData

/-- The three data file types OB6.cpp dispatches on (enum values PATCH,
GLOBAL_SETTINGS, ALTERNATE_TUNING). -/
inductive DataFileType where
  | PATCH
  | GLOBAL_SETTINGS
  | ALTERNATE_TUNING
deriving DecidableEq, Repr

/-- OB6::isDataFile: only own sysex is considered; then PATCH means program or
edit buffer dump, GLOBAL_SETTINGS means settings dump, ALTERNATE_TUNING defers
to the tuning sub-codec. -/
def isDataFile (msg : List Nat) (dataTypeID : DataFileType) : Bool :=
  if isOwnSysex msg then
    match dataTypeID with
    | .PATCH => isSingleProgramDump msg || isEditBufferDump msg
    | .GLOBAL_SETTINGS => isGlobalSettingsDump msg
    | .ALTERNATE_TUNING => midiTuningIsTuningDump msg
  else false

/-- OB6::isPartOfDataFileStream delegates to isDataFile. -/
def isPartOfDataFileStream (msg : List Nat) (dataTypeID : DataFileType) : Bool :=
  isDataFile msg dataTypeID

/-- OB6::loadData: keeps the messages belonging to the requested stream; for
GLOBAL_SETTINGS and ALTERNATE_TUNING the stored data file is the verbatim sysex
byte vector (the tuning branch's MidiTuning::fromMidiMessage parse is external;
its acceptance is modelled by the tuning sub-codec recognizer already required
by isPartOfDataFileStream). The PATCH case is unimplemented in the source
(assertion only) and stores nothing. -/
def loadData (messages : List (List Nat)) (dataTypeID : DataFileType) : List (List Nat) :=
  match messages with
  | [] => []
  | m :: rest =>
    if isPartOfDataFileStream m dataTypeID then
      match dataTypeID with
      | .GLOBAL_SETTINGS => m :: loadData rest dataTypeID
      | .ALTERNATE_TUNING => m :: loadData rest dataTypeID
      | .PATCH => loadData rest dataTypeID
    else loadData rest dataTypeID

/-- Modelled from the spec: the decode half of setGlobalSettingsFromDataFile
lives in the shared DSISynth base, not in this repository. Spec section 4.3:
decoding a snapshot reads each registry parameter's byte offset and yields a
mapping from parameter id to the value found there; the offsets are the
OB6_GLOBAL_PARAMS indexes shifted by the 3 header bytes, as used by
channelIfValidDeviceResponse itself. -/
def decodeGlobalSettings (snapshot : List Nat) : List (Nat × Nat) :=
  gOB6GlobalSettingsDefinitions.map
    (fun d => (d.sysexIndex, snapshot.getD (3 + d.sysexIndex) 0))

/-- Modelled from the spec: MidiChannel is a shared base abstraction (spec
section 1 lists channel types among the external collaborators). Its three
producers used by OB6.cpp are kept as distinct constructors; fromOneBase simply
carries the one-based channel number it is given. -/
inductive MidiChannel where
  | omniChannel
  | fromOneBase (n : Nat)
  | invalidChannel
deriving DecidableEq, Repr

/-- The driver instance state the claims touch: the two cached control flags
(DSISynth members localControl_ and midiControl_) and the cached named-value
global settings, none until a settings snapshot has been decoded into it. -/
structure DriverState where
  localControl : Bool
  midiControl : Bool
  globalSettingsDecoded : Option (List (Nat × Nat))
deriving DecidableEq, Repr

/-- The driver state right after construction: flags clear, no settings decoded. -/
def initialState : DriverState :=
  ⟨false, false, none⟩

/-- OB6::channelIfValidDeviceResponse, as a state transformer returning the new
driver state and the resolved channel. On a global settings dump it caches the
two control flags from bytes 3 + LOCAL_CONTROL and 3 + MIDI_CONTROL, reads the
channel byte at 3 + MIDI_CHANNEL, answers omni immediately when that byte is 0,
and otherwise loads the dump as a data file, decodes it into the cached
settings, and answers the one-based channel; any other message leaves the state
alone and answers the invalid channel. -/
def channelIfValidDeviceResponse (s : DriverState) (msg : List Nat) :
    DriverState × MidiChannel :=
  if isGlobalSettingsDump msg then
    let s1 : DriverState :=
      { s with
        localControl := msg.getD (3 + LOCAL_CONTROL) 0 == 1
        midiControl := msg.getD (3 + MIDI_CONTROL) 0 == 1 }
    let midiChannel := msg.getD (MIDI_CHANNEL + 3) 0
    if midiChannel == 0 then
      (s1, MidiChannel.omniChannel)
    else
      let dataFile := loadData [msg] DataFileType.GLOBAL_SETTINGS
      let s2 : DriverState :=
        if 0 < dataFile.length then
          { s1 with globalSettingsDecoded := some (decodeGlobalSettings (dataFile.getD 0 [])) }
        else s1
      (s2, MidiChannel.fromOneBase midiChannel)
  else (s, MidiChannel.invalidChannel)

/-- An outbound MIDI write, at the granularity OB6.cpp requests it: an NRPN
write of a value to an address (createNRPN in the shared base builds the
four-controller sequence of spec section 4.4 from exactly these two numbers),
or a single controller-change event. -/
inductive OutMsg where
  | nrpn (address : Nat) (value : Nat)
  | cc (channel : Nat) (controller : Nat) (value : Nat)
deriving DecidableEq, Repr

/-- OB6::setMidiControl: sends createNRPN(1031, isOn) and caches the flag. -/
def setMidiControl (s : DriverState) (isOn : Bool) : DriverState × List OutMsg :=
  ({ s with midiControl := isOn }, [OutMsg.nrpn 1031 (if isOn then 1 else 0)])

/-- OB6::setLocalControl: sends createNRPN(1035, localControlOn), then a
controller-change with controller 0x7a on the device's one-based channel, and
caches the flag. -/
def setLocalControl (s : DriverState) (channel : Nat) (localControlOn : Bool) :
    DriverState × List OutMsg :=
  ({ s with localControl := localControlOn },
   [OutMsg.nrpn 1035 (if localControlOn then 1 else 0),
    OutMsg.cc channel 0x7a (if localControlOn then 1 else 0)])

/-- kOB6BlankOutZones: the single name zone, a JUCE Range with start 107 and
end 127. JUCE ranges are start-inclusive and end-exclusive. -/
def kOB6BlankOutZones : List (Nat × Nat) := [(107, 127)]

/-- Modelled from the spec: Patch::blankOut lives in the shared MidiKraft base,
not in this repository. Spec sections 3 and 6: the blank-out zones of the
payload are zeroed and every byte outside them is left unchanged; each zone is
a JUCE range, start-inclusive and end-exclusive. One byte of the result. -/
def blankOutByte (zones : List (Nat × Nat)) (i : Nat) (b : Nat) : Nat :=
  if zones.any (fun z => decide (z.1 ≤ i) && decide (i < z.2)) then 0 else b

/-- Byte-wise blank-out of the payload starting at running index i. -/
def blankOutFrom (zones : List (Nat × Nat)) : Nat → List Nat → List Nat
  | _, [] => []
  | i, b :: rest => blankOutByte zones i b :: blankOutFrom zones (i + 1) rest

/-- Patch::blankOut over a whole payload, indexes starting at 0. -/
def blankOut (zones : List (Nat × Nat)) (patchData : List Nat) : List Nat :=
  blankOutFrom zones 0 patchData

/-- OB6::filterVoiceRelevantData: blank out the name zones of the payload. -/
def filterVoiceRelevantData (patchData : List Nat) : List Nat :=
  blankOut kOB6BlankOutZones patchData

theorem unescape_escape_aux (x : List Nat) :
    unescapeSysex (escapeSysex x) x.length = x := by
  induction x with
  | nil => rfl
  | cons b rest ih =>
    simp only [escapeSysex, unescapeSysex, List.length_cons, ih]
    rw [Nat.div_add_mod']

/-- C2: for every byte sequence x, unescaping the escape of x at x's own
length recovers x exactly (the codec of patchToSysex, patchToProgramDumpSysex
and patchFromSysex is a lossless bijection at known decoded length). -/
theorem c2_unescape_escape_roundtrip (x : List Nat) :
    unescapeSysex (escapeSysex x) x.length = x :=
  unescape_escape_aux x

/-- C9: the global settings registry holds exactly 19 parameter definitions,
their parameter identifiers are pairwise distinct, their NRPN addresses are
pairwise distinct, and every call of kOB6GlobalSettings returns that same
definitions list. -/
theorem c9_registry_invariants :
    (∀ u : Unit, kOB6GlobalSettings u = gOB6GlobalSettingsDefinitions)
  ∧ gOB6GlobalSettingsDefinitions.length = 19
  ∧ (gOB6GlobalSettingsDefinitions.map (fun d => d.sysexIndex)).Nodup
  ∧ (gOB6GlobalSettingsDefinitions.map (fun d => d.nrpn)).Nodup := by
  exact ⟨fun _ => rfl, by decide, by decide, by decide⟩

/-- C1 (code-bug evidence): evaluating the remote writes shows setLocalControl
sends its NRPN write to address 1035 (plus the controller-change with
controller 0x7a) and setMidiControl sends its NRPN write to address 1031 —
while the registry in the same file assigns NRPN address 1031 to LOCAL_CONTROL
and 1035 to MIDI_CONTROL, so each function targets the address the code's own
table gives to the other parameter. -/
theorem c1_control_write_addresses_swapped :
    (setLocalControl initialState 1 true).2 = [OutMsg.nrpn 1035 1, OutMsg.cc 1 0x7a 1]
  ∧ (setMidiControl initialState true).2 = [OutMsg.nrpn 1031 1]
  ∧ ((gOB6GlobalSettingsDefinitions.filter
        (fun d => d.sysexIndex == LOCAL_CONTROL)).map (fun d => d.nrpn)) = [1031]
  ∧ ((gOB6GlobalSettingsDefinitions.filter
        (fun d => d.sysexIndex == MIDI_CONTROL)).map (fun d => d.nrpn)) = [1035] := by
  exact ⟨rfl, rfl, by decide, by decide⟩

/-- C10: isGlobalSettingsDump accepts the minimal 3-byte message with command
0x0f, on which the unconditional read at index 13 performed by
channelIfValidDeviceResponse is out of bounds; for every accepted dump the
reads at indices 5, 10 and 13 are all in bounds exactly when the data size is
at least 14, and an accepted dump shorter than 14 bytes always leaves the index
13 read out of bounds. -/
theorem c10_settings_dump_read_bounds (data : List Nat) :
    (isGlobalSettingsDump [0x01, midiModelID, 0x0f] = true
       ∧ ¬ 13 < ([0x01, midiModelID, 0x0f] : List Nat).length)
  ∧ (isGlobalSettingsDump data = true → 14 ≤ data.length →
       5 < data.length ∧ 10 < data.length ∧ 13 < data.length)
  ∧ (isGlobalSettingsDump data = true → data.length < 14 → ¬ 13 < data.length) := by
  refine ⟨⟨by decide, by decide⟩, fun _ h => ⟨by omega, by omega, by omega⟩,
    fun _ h => by omega⟩

/-- C10 witness: a concrete 14-byte global settings dump is accepted and all
three cached-state reads are in bounds on it. -/
theorem c10_settings_dump_read_bounds_witness :
    5 < ([0x01, 0x2e, 0x0f, 0, 0, 1, 0, 0, 0, 0, 0, 0, 0, 0] : List Nat).length
  ∧ 10 < ([0x01, 0x2e, 0x0f, 0, 0, 1, 0, 0, 0, 0, 0, 0, 0, 0] : List Nat).length
  ∧ 13 < ([0x01, 0x2e, 0x0f, 0, 0, 1, 0, 0, 0, 0, 0, 0, 0, 0] : List Nat).length :=
  (c10_settings_dump_read_bounds
    [0x01, 0x2e, 0x0f, 0, 0, 1, 0, 0, 0, 0, 0, 0, 0, 0]).2.1 (by decide) (by decide)

/-- C5: classification is a total, deterministic, pure function of the bytes:
a data sequence starting 0x01, model id, 0x0f is a Global Settings Dump; one
starting 0x01, model id, 0x02, b, p yields a program record carrying slot
b * 100 + p; one starting 0x01, model id, 0x03 yields a slot-less edit buffer
record; and any message whose vendor byte differs from 0x01 is foreign (no
record, no settings dump, not this device's sysex), whatever its remaining
bytes. -/
theorem c5_classification_table (v b p : Nat) (rest : List Nat) :
    (isGlobalSettingsDump (0x01 :: midiModelID :: 0x0f :: rest) = true)
  ∧ (patchFromSysex (0x01 :: midiModelID :: 0x02 :: b :: p :: rest)
      = some ⟨unescapeSysex rest 1024, some (b * 100 + p)⟩)
  ∧ (patchFromSysex (0x01 :: midiModelID :: 0x03 :: rest)
      = some ⟨unescapeSysex rest 1024, none⟩)
  ∧ (v ≠ 0x01 → patchFromSysex (v :: rest) = none
      ∧ isGlobalSettingsDump (v :: rest) = false
      ∧ isOwnSysex (v :: rest) = false) := by
  refine ⟨?_, ?_, ?_, fun hv => ?_⟩
  · simp [isGlobalSettingsDump, isOwnSysex]
  · simp [patchFromSysex, isOwnSysex]
  · simp [patchFromSysex, isOwnSysex]
  · have hown : isOwnSysex (v :: rest) = false := by
      cases rest with
      | nil => rfl
      | cons m t => simp [isOwnSysex, hv]
    exact ⟨by simp [patchFromSysex, hown], by simp [isGlobalSettingsDump, hown], hown⟩

/-- C5 witness: the classification facts hold at concrete messages — the
minimal settings dump is recognized, and a message with vendor byte 0x00 is
foreign. -/
theorem c5_classification_table_witness :
    isGlobalSettingsDump [0x01, 0x2e, 0x0f] = true
  ∧ patchFromSysex [0x00] = none :=
  ⟨(c5_classification_table 0 0 0 []).1,
   ((c5_classification_table 0 0 0 []).2.2.2 (by decide)).1⟩

theorem isOwnSysex_of_settingsDump (msg : List Nat)
    (h : isGlobalSettingsDump msg = true) : isOwnSysex msg = true := by
  simp only [isGlobalSettingsDump, Bool.and_eq_true] at h
  exact h.1.1

theorem loadData_single_settings (msg : List Nat)
    (h : isGlobalSettingsDump msg = true) :
    loadData [msg] DataFileType.GLOBAL_SETTINGS = [msg] := by
  simp [loadData, isPartOfDataFileStream, isDataFile,
    isOwnSysex_of_settingsDump msg h, h]

/-- C3 (amended): on a recognized global settings dump,
channelIfValidDeviceResponse answers the omni channel when the channel byte
(data index 5) is 0 and the one-based channel c for every nonzero byte c —
including bytes above 16, for which no range check exists — and it answers the
invalid channel exactly for messages not recognized as settings dumps. -/
theorem c3_channel_resolution_amended (s : DriverState) (msg : List Nat) :
    (isGlobalSettingsDump msg = true → msg.getD 5 0 = 0 →
       (channelIfValidDeviceResponse s msg).2 = MidiChannel.omniChannel)
  ∧ (isGlobalSettingsDump msg = true → msg.getD 5 0 ≠ 0 →
       (channelIfValidDeviceResponse s msg).2 = MidiChannel.fromOneBase (msg.getD 5 0))
  ∧ (isGlobalSettingsDump msg = false →
       (channelIfValidDeviceResponse s msg).2 = MidiChannel.invalidChannel) := by
  refine ⟨fun h h0 => ?_, fun h h0 => ?_, fun h => ?_⟩
  · have h0n : msg[5]?.getD 0 = 0 := by simpa using h0
    simp [channelIfValidDeviceResponse, h, MIDI_CHANNEL, h0n]
  · have h0n : ¬ msg[5]?.getD 0 = 0 := by simpa using h0
    simp [channelIfValidDeviceResponse, h, MIDI_CHANNEL, h0n]
  · simp [channelIfValidDeviceResponse, h]

/-- C3 counterexample: a settings dump whose channel byte is 17 (greater than
16) resolves to the one-based channel 17, not to the invalid channel the claim
requires for bytes above 16. -/
theorem c3_channel_above_16_not_invalid :
    (channelIfValidDeviceResponse initialState
       [0x01, 0x2e, 0x0f, 0, 0, 17, 0, 0, 0, 0, 0, 0, 0, 0]).2
      = MidiChannel.fromOneBase 17
  ∧ MidiChannel.fromOneBase 17 ≠ MidiChannel.invalidChannel := by
  exact ⟨by decide, by decide⟩

/-- C3 witness: a settings dump with channel byte 0 resolves to omni, one with
channel byte 1 resolves to channel 1, and a non-dump message is invalid. -/
theorem c3_channel_resolution_amended_witness :
    (channelIfValidDeviceResponse initialState
       [0x01, 0x2e, 0x0f, 0, 0, 0, 0, 0, 0, 0, 0, 0, 0, 0]).2 = MidiChannel.omniChannel
  ∧ (channelIfValidDeviceResponse initialState
       [0x01, 0x2e, 0x0f, 0, 0, 1, 0, 0, 0, 0, 0, 0, 0, 0]).2 = MidiChannel.fromOneBase 1
  ∧ (channelIfValidDeviceResponse initialState [0x77]).2 = MidiChannel.invalidChannel :=
  ⟨(c3_channel_resolution_amended initialState
      [0x01, 0x2e, 0x0f, 0, 0, 0, 0, 0, 0, 0, 0, 0, 0, 0]).1 (by decide) (by decide),
   (c3_channel_resolution_amended initialState
      [0x01, 0x2e, 0x0f, 0, 0, 1, 0, 0, 0, 0, 0, 0, 0, 0]).2.1 (by decide) (by decide),
   (c3_channel_resolution_amended initialState [0x77]).2.2 (by decide)⟩

/-- C4 (amended): every recognized settings dump caches the local-control flag
from data index 13 and the MIDI-control flag from data index 10; the snapshot
is fully decoded into the cached named-value settings exactly when the channel
byte is nonzero — a dump reporting the omni channel (byte 0) returns before the
decode step and leaves the cached settings untouched. -/
theorem c4_flags_cached_decode_nonomni (s : DriverState) (msg : List Nat)
    (h : isGlobalSettingsDump msg = true) :
    ((channelIfValidDeviceResponse s msg).1.localControl = (msg.getD 13 0 == 1))
  ∧ ((channelIfValidDeviceResponse s msg).1.midiControl = (msg.getD 10 0 == 1))
  ∧ (msg.getD 5 0 ≠ 0 →
       (channelIfValidDeviceResponse s msg).1.globalSettingsDecoded
         = some (decodeGlobalSettings msg))
  ∧ (msg.getD 5 0 = 0 →
       (channelIfValidDeviceResponse s msg).1.globalSettingsDecoded
         = s.globalSettingsDecoded) := by
  have hload := loadData_single_settings msg h
  by_cases h0 : msg.getD 5 0 = 0
  · have h0n : msg[5]?.getD 0 = 0 := by simpa using h0
    refine ⟨?_, ?_, fun hne => absurd h0 hne, fun _ => ?_⟩ <;>
      simp [channelIfValidDeviceResponse, h, MIDI_CHANNEL, LOCAL_CONTROL, MIDI_CONTROL, h0n]
  · have h0n : ¬ msg[5]?.getD 0 = 0 := by simpa using h0
    refine ⟨?_, ?_, fun _ => ?_, fun heq => absurd heq h0⟩ <;>
      simp [channelIfValidDeviceResponse, h, MIDI_CHANNEL, LOCAL_CONTROL, MIDI_CONTROL,
        h0n, hload]

/-- C4 counterexample: an omni settings dump (channel byte 0) is recognized and
its control flags are cached, yet the cached named-value settings remain
undecoded (still none), contradicting the claim that the snapshot is fully
decoded for every matching dump including the omni one. -/
theorem c4_omni_dump_skips_decode :
    isGlobalSettingsDump [0x01, 0x2e, 0x0f, 0, 0, 0, 0, 0, 0, 0, 1, 0, 0, 1] = true
  ∧ (channelIfValidDeviceResponse initialState
       [0x01, 0x2e, 0x0f, 0, 0, 0, 0, 0, 0, 0, 1, 0, 0, 1]).1.localControl = true
  ∧ (channelIfValidDeviceResponse initialState
       [0x01, 0x2e, 0x0f, 0, 0, 0, 0, 0, 0, 0, 1, 0, 0, 1]).1.midiControl = true
  ∧ (channelIfValidDeviceResponse initialState
       [0x01, 0x2e, 0x0f, 0, 0, 0, 0, 0, 0, 0, 1, 0, 0, 1]).1.globalSettingsDecoded
      = none := by
  exact ⟨by decide, by decide, by decide, by decide⟩

/-- C4 witness: on a concrete settings dump with channel byte 1 the flags are
cached from indices 13 and 10 and the snapshot is decoded into the cached
settings. -/
theorem c4_flags_cached_decode_nonomni_witness :
    ((channelIfValidDeviceResponse initialState
        [0x01, 0x2e, 0x0f, 0, 0, 1, 0, 0, 0, 0, 1, 0, 0, 1]).1.localControl
      = ((1 : Nat) == 1))
  ∧ ((channelIfValidDeviceResponse initialState
        [0x01, 0x2e, 0x0f, 0, 0, 1, 0, 0, 0, 0, 1, 0, 0, 1]).1.globalSettingsDecoded
      = some (decodeGlobalSettings [0x01, 0x2e, 0x0f, 0, 0, 1, 0, 0, 0, 0, 1, 0, 0, 1])) :=
  ⟨(c4_flags_cached_decode_nonomni initialState
      [0x01, 0x2e, 0x0f, 0, 0, 1, 0, 0, 0, 0, 1, 0, 0, 1] (by decide)).1,
   (c4_flags_cached_decode_nonomni initialState
      [0x01, 0x2e, 0x0f, 0, 0, 1, 0, 0, 0, 0, 1, 0, 0, 1] (by decide)).2.2.1 (by decide)⟩

/-- C6: building a program data dump for slot 217 (bank 2, program 17) from any
1024-byte payload and classifying it back recovers the record with slot 217 and
the payload byte-for-byte — in particular unchanged outside the name blank-out
zone. -/
theorem c6_program_dump_roundtrip (patchData : List Nat)
    (h : patchData.length = 1024) :
    patchFromSysex (patchToProgramDumpSysex patchData 217)
      = some ⟨patchData, some 217⟩ := by
  have hunesc := unescape_escape_aux patchData
  rw [h] at hunesc
  simp [patchToProgramDumpSysex, patchFromSysex, isOwnSysex, numberOfPatches, hunesc]

/-- C6 witness: the round trip holds on a concrete all-zero 1024-byte payload. -/
theorem c6_program_dump_roundtrip_witness :
    patchFromSysex (patchToProgramDumpSysex (List.replicate 1024 0) 217)
      = some ⟨List.replicate 1024 0, some 217⟩ :=
  c6_program_dump_roundtrip (List.replicate 1024 0) (by rw [List.length_replicate])

theorem blankOutFrom_getD (zones : List (Nat × Nat)) (patchData : List Nat) :
    ∀ i j, j < patchData.length →
      (blankOutFrom zones i patchData).getD j 0
        = blankOutByte zones (i + j) (patchData.getD j 0) := by
  induction patchData with
  | nil => intro i j hj; simp at hj
  | cons b rest ih =>
    intro i j hj
    cases j with
    | zero => simp [blankOutFrom]
    | succ k =>
      simp only [blankOutFrom, List.getD_cons_succ]
      rw [ih (i + 1) k (by simpa using Nat.lt_of_succ_lt_succ hj)]
      congr 1
      omega

/-- C7 (amended): the name blank-out of filterVoiceRelevantData zeroes exactly
the bytes at offsets 107 through 126 inclusive (the 20 name characters; the
zone is a JUCE end-exclusive range with end 127) and leaves every byte at any
other offset unchanged. -/
theorem c7_blankout_zone_amended (patchData : List Nat) (j : Nat)
    (hj : j < patchData.length) :
    (107 ≤ j ∧ j < 127 → (filterVoiceRelevantData patchData).getD j 0 = 0)
  ∧ (j < 107 ∨ 127 ≤ j →
       (filterVoiceRelevantData patchData).getD j 0 = patchData.getD j 0) := by
  have hpoint := blankOutFrom_getD kOB6BlankOutZones patchData 0 j hj
  rw [Nat.zero_add] at hpoint
  constructor
  · rintro ⟨h1, h2⟩
    rw [filterVoiceRelevantData, blankOut, hpoint, blankOutByte, if_pos]
    simp [kOB6BlankOutZones, h1, h2]
  · intro hout
    rw [filterVoiceRelevantData, blankOut, hpoint, blankOutByte, if_neg]
    simp only [kOB6BlankOutZones, List.any_cons, List.any_nil, Bool.or_false,
      Bool.and_eq_true, decide_eq_true_eq]
    omega

/-- C7 counterexample: on a 128-byte payload of ones, the byte at offset 127 is
left at value 1 — not zeroed, although the claim includes offset 127 in the
zeroed range. -/
theorem c7_byte_127_not_zeroed :
    (filterVoiceRelevantData (List.replicate 128 1)).getD 127 0 = 1
  ∧ (1 : Nat) ≠ 0 := by
  exact ⟨by decide, by decide⟩

/-- C7 witness: on the same concrete payload, offset 110 (inside the zone) is
zeroed and offset 0 (outside the zone) keeps its value. -/
theorem c7_blankout_zone_amended_witness :
    (filterVoiceRelevantData (List.replicate 128 1)).getD 110 0 = 0
  ∧ (filterVoiceRelevantData (List.replicate 128 1)).getD 0 0
      = (List.replicate 128 1).getD 0 0 :=
  ⟨(c7_blankout_zone_amended (List.replicate 128 1) 110 (by simp)).1 (by omega),
   (c7_blankout_zone_amended (List.replicate 128 1) 0 (by simp)).2 (by omega)⟩

theorem isOwnSysex_head_byte (msg : List Nat) (h : isOwnSysex msg = true) :
    msg.getD 0 0 = 0x01 := by
  match msg with
  | [] => simp [isOwnSysex] at h
  | [v] => simp [isOwnSysex] at h
  | v :: m :: rest =>
    simp only [isOwnSysex, Bool.and_eq_true, beq_iff_eq] at h
    simp [h.1]

/-- C8: a message that is foreign (not this device's sysex), or whose data is 2
bytes or shorter, or whose command byte is none of the known commands 0x02,
0x03, 0x0e, 0x0f, yields no patch record from patchFromSysex and is no data
file of any type — both functions are total and pure, so no error is raised
and no driver state is touched. -/
theorem c8_unrecognized_rejected (msg : List Nat) (t : DataFileType)
    (h : isOwnSysex msg = false ∨ msg.length ≤ 2
         ∨ (msg.getD 2 0 ≠ 0x02 ∧ msg.getD 2 0 ≠ 0x03
            ∧ msg.getD 2 0 ≠ 0x0e ∧ msg.getD 2 0 ≠ 0x0f)) :
    patchFromSysex msg = none ∧ isDataFile msg t = false := by
  by_cases hown : isOwnSysex msg = true
  case neg =>
    have hof : isOwnSysex msg = false := by
      cases hb : isOwnSysex msg
      · rfl
      · exact absurd hb hown
    simp [patchFromSysex, isDataFile, hof]
  case pos =>
    have hhead : msg[0]?.getD 0 = 0x01 := by
      simpa using isOwnSysex_head_byte msg hown
    have htun : midiTuningIsTuningDump msg = false := by
      simp [midiTuningIsTuningDump, hhead]
    have hcond : ¬ 2 < msg.length
        ∨ (¬ msg[2]?.getD 0 = 0x02 ∧ ¬ msg[2]?.getD 0 = 0x03 ∧ ¬ msg[2]?.getD 0 = 0x0f) := by
      rcases h with h | h | h
      · rw [hown] at h; exact Bool.noConfusion h
      · left; omega
      · exact Or.inr ⟨by simpa using h.1, by simpa using h.2.1, by simpa using h.2.2.2⟩
    constructor
    · rcases hcond with hc | hc
      · simp [patchFromSysex, hown, hc]
      · simp [patchFromSysex, hown, hc.1, hc.2.1]
    · cases t with
      | PATCH =>
        rcases hcond with hc | hc
        · simp [isDataFile, hown, isSingleProgramDump, isEditBufferDump, hc]
        · simp [isDataFile, hown, isSingleProgramDump, isEditBufferDump, hc.1, hc.2.1]
      | GLOBAL_SETTINGS =>
        rcases hcond with hc | hc
        · simp [isDataFile, hown, isGlobalSettingsDump, hc]
        · simp [isDataFile, hown, isGlobalSettingsDump, hc.2.2]
      | ALTERNATE_TUNING => simp [isDataFile, hown, htun]

/-- C8 witness: the 2-byte message carrying only the device header produces no
record and is no data file of type GLOBAL_SETTINGS. -/
theorem c8_unrecognized_rejected_witness :
    patchFromSysex [0x01, 0x2e] = none
  ∧ isDataFile [0x01, 0x2e] DataFileType.GLOBAL_SETTINGS = false :=
  c8_unrecognized_rejected [0x01, 0x2e] DataFileType.GLOBAL_SETTINGS (by decide)

end OB6Verification
